import Mathlib

/-!
Verification development for the CounterApp service.

Shallow embedding of the registry lifecycle client
(`src/config/eureka_config.py`), the HTTP listener supervisor
(`src/config/http_server_config.py`), the TLS context builder
(`src/config/security_config.py`), the JWT role validator
(`src/config/keycloak_config.py`), the health controller
(`src/controllers/health_controller.py`) and the coordinated shutdown
sequence (`src/app.py`).

External effects are modelled by explicit oracles: the outcome of an
HTTP request made with `urllib` is a `NetResult` supplied as an
argument, and `os.path.exists` is a `String → Bool` predicate.
-/

namespace CounterApp

/-- Python truthiness of an optional string: `None` and the empty
string are falsy (as in `if not self.app_name`). -/
def pyTruthy : Option String → Bool
  | none => false
  | some s => !s.isEmpty

/-- Python string interpolation of an optional string: `None` renders
as the literal text `None` inside an f-string. -/
def pyStr : Option String → String
  | none => "None"
  | some s => s

/-- Outcome of a single `urllib.request.urlopen` call against the
registry: a response with a status code, an `HTTPError` with a code,
or any other exception (network failure, timeout). -/
inductive NetResult
  | status (code : Nat)
  | httpError (code : Nat)
  | exn
  deriving DecidableEq, Repr

/-- An HTTP request the client hands to `urllib` (method and URL). -/
structure NetRequest where
  method : String
  url : String
  deriving DecidableEq, Repr

/-- The fields of `EurekaConfig` the registry operations read:
`self.app_name` (from the `APP_NAME` environment variable, `none`
when unset), `self.instance_id` and `self.eureka_server_url`. -/
structure EurekaConfigState where
  app_name : Option String
  instance_id : String
  eureka_server_url : String
  deriving DecidableEq, Repr

namespace EurekaConfig

/-- `EurekaConfig.__init__` (src/config/eureka_config.py lines 66-68):
when `APP_NAME` is unset (or empty) the constructor raises
`ValueError("APP_NAME environment variable is required but not set")`;
otherwise the configuration object is built. -/
def init (env_app_name : Option String) (instance_id url : String) :
    Except String EurekaConfigState :=
  if !pyTruthy env_app_name then
    Except.error "APP_NAME environment variable is required but not set"
  else
    Except.ok { app_name := env_app_name, instance_id := instance_id,
                eureka_server_url := url }

/-- `EurekaConfig.register_with_eureka` (lines 165-258): when
`self.app_name` is falsy it returns `False` before building any
request; otherwise it POSTs to `{url}apps/{app_name}` and returns
`True` exactly on response status 204, `False` on any other status,
on `HTTPError`, or on any other exception.  Result is the pair
(return value, the request handed to the network, if any). -/
def register_with_eureka (cfg : EurekaConfigState) (net : NetResult) :
    Bool × Option NetRequest :=
  if !pyTruthy cfg.app_name then
    (false, none)
  else
    let req : NetRequest :=
      { method := "POST",
        url := cfg.eureka_server_url ++ "apps/" ++ pyStr cfg.app_name }
    match net with
    | NetResult.status code => (code == 204, some req)
    | NetResult.httpError _ => (false, some req)
    | NetResult.exn => (false, some req)

/-- `EurekaConfig.deregister_from_eureka` (lines 260-303): when
`self.app_name` is falsy it returns `False` before building any
request; otherwise it DELETEs `{url}apps/{app_name}/{instance_id}`
and returns `True` exactly on status 200, `False` on any other
status, `HTTPError` or exception. -/
def deregister_from_eureka (cfg : EurekaConfigState) (net : NetResult) :
    Bool × Option NetRequest :=
  if !pyTruthy cfg.app_name then
    (false, none)
  else
    let req : NetRequest :=
      { method := "DELETE",
        url := cfg.eureka_server_url ++ "apps/" ++ pyStr cfg.app_name
                 ++ "/" ++ cfg.instance_id }
    match net with
    | NetResult.status code => (code == 200, some req)
    | NetResult.httpError _ => (false, some req)
    | NetResult.exn => (false, some req)

/-- `EurekaConfig.send_heartbeat` (lines 330-367): there is no
`app_name` guard; the method always builds and sends the PUT to
`{url}apps/{app_name}/{instance_id}` and returns `True` exactly on
status 200; every exception is caught and turned into `False`. -/
def send_heartbeat (cfg : EurekaConfigState) (net : NetResult) :
    Bool × Option NetRequest :=
  let req : NetRequest :=
    { method := "PUT",
      url := cfg.eureka_server_url ++ "apps/" ++ pyStr cfg.app_name
               ++ "/" ++ cfg.instance_id }
  match net with
  | NetResult.status code => (code == 200, some req)
  | NetResult.httpError _ => (false, some req)
  | NetResult.exn => (false, some req)

/-- The heartbeat bookkeeping of `EurekaConfig`:
`self.heartbeat_thread` (`none` when still `None`, `some b` for a
thread whose `is_alive()` is `b`) and the `self.heartbeat_running`
flag. -/
structure HeartbeatState where
  heartbeat_thread : Option Bool
  heartbeat_running : Bool
  deriving DecidableEq, Repr

/-- `self.heartbeat_thread is None or not self.heartbeat_thread.is_alive()`
negated: whether a live heartbeat worker thread exists. -/
def threadAlive (st : HeartbeatState) : Bool :=
  match st.heartbeat_thread with
  | none => false
  | some alive => alive

/-- Number of live heartbeat worker loops implied by the state: the
single tracked thread when it is alive, nothing otherwise. -/
def activeLoops (st : HeartbeatState) : Nat :=
  if threadAlive st then 1 else 0

/-- State before any heartbeat has been started:
`self.heartbeat_thread = None`, `self.heartbeat_running = False`. -/
def initialHeartbeat : HeartbeatState :=
  { heartbeat_thread := none, heartbeat_running := false }

/-- `EurekaConfig.start_heartbeat` (lines 305-311): only when the
thread is `None` or dead does it set `heartbeat_running = True` and
spawn a fresh (alive) worker thread; otherwise the body is skipped. -/
def start_heartbeat (st : HeartbeatState) : HeartbeatState :=
  if !threadAlive st then
    { heartbeat_thread := some true, heartbeat_running := true }
  else
    st

/-- `EurekaConfig._heartbeat_worker` (lines 320-328) run over a finite
schedule of ticks.  Each tick supplies the value of
`self.heartbeat_running` observed at the loop head and the network
outcome of that tick's `send_heartbeat` call.  The loop exits exactly
when the flag reads false; the result of `send_heartbeat` is recorded
but never consulted, and its exceptions are all caught inside
`send_heartbeat` (with the worker's own try/except as a second
belt), so no tick outcome can break the loop. -/
def heartbeat_worker (cfg : EurekaConfigState) :
    List (Bool × NetResult) → List Bool
  | [] => []
  | (running, net) :: rest =>
    if running then
      (send_heartbeat cfg net).1 :: heartbeat_worker cfg rest
    else
      []

end EurekaConfig

/-- Module-level `register_with_eureka` (src/config/eureka_config.py
lines 23-32): calls the instance method and starts the heartbeat only
when it returned `True`.  Result: (registration success, heartbeat
state after the call). -/
def module_register_with_eureka (cfg : EurekaConfigState)
    (net : NetResult) (hb : EurekaConfig.HeartbeatState) :
    Bool × EurekaConfig.HeartbeatState :=
  let success := (EurekaConfig.register_with_eureka cfg net).1
  if success then (success, EurekaConfig.start_heartbeat hb)
  else (success, hb)

/-- TLS verification mode of an `ssl.SSLContext`
(`ssl.CERT_NONE` / `ssl.CERT_REQUIRED`). -/
inductive VerifyMode
  | cert_none
  | cert_required
  deriving DecidableEq, Repr

/-- The observable fields of the server `ssl.SSLContext` built by
`SecurityConfig.create_ssl_context`. -/
structure SslContext where
  check_hostname : Bool
  verify_mode : VerifyMode
  ca_loaded : Bool
  deriving DecidableEq, Repr

/-- The Flask `app.config` entries that `create_ssl_context` reads. -/
structure SslAppConfig where
  ssl_enabled : Bool
  ssl_cert_path : Option String
  ssl_key_path : Option String
  ca_bundle_path : Option String
  mutual_tls_enabled : Bool
  deriving DecidableEq, Repr

/-- The uncaught exceptions `create_ssl_context` can raise: an
`ssl.SSLContext.load_cert_chain` failure (line 79) or an
`ssl.SSLContext.load_verify_locations` failure (line 86); the method
has no try/except, so both propagate to the caller. -/
inductive SslLoadError
  | certChain
  | verifyLocations
  deriving DecidableEq, Repr

/-- `SecurityConfig.create_ssl_context` (src/config/security_config.py
lines 59-93): returns `None` when `SSL_ENABLED` is false or when the
certificate or key path is falsy or its file is absent
(`os.path.exists`); otherwise it builds a server context and calls
`load_cert_chain(cert_path, key_path)`, whose failure (unreadable or
malformed material) is uncaught and propagates.  It then sets
`check_hostname = False` and, when `mutual_tls_enabled` holds and the
CA bundle path is truthy and its file exists — existence, not
readability, is all the code checks — it sets `verify_mode` to
`CERT_REQUIRED` and calls `load_verify_locations(ca_bundle_path)`,
whose failure is likewise uncaught, so that context never escapes;
in every other case `verify_mode` is `CERT_NONE` and the context is
returned.  `exists_fs` is the `os.path.exists` oracle and `loadable`
says whether the SSL library can read and parse the material at a
path. -/
def create_ssl_context (cfg : SslAppConfig)
    (exists_fs loadable : String → Bool) :
    Except SslLoadError (Option SslContext) :=
  if !cfg.ssl_enabled then
    Except.ok none
  else
    if !(pyTruthy cfg.ssl_cert_path && pyTruthy cfg.ssl_key_path
          && exists_fs (pyStr cfg.ssl_cert_path)
          && exists_fs (pyStr cfg.ssl_key_path)) then
      Except.ok none
    else
      if !(loadable (pyStr cfg.ssl_cert_path)
            && loadable (pyStr cfg.ssl_key_path)) then
        Except.error SslLoadError.certChain
      else
        if cfg.mutual_tls_enabled && pyTruthy cfg.ca_bundle_path
            && exists_fs (pyStr cfg.ca_bundle_path) then
          if !loadable (pyStr cfg.ca_bundle_path) then
            Except.error SslLoadError.verifyLocations
          else
            Except.ok (some { check_hostname := false,
                              verify_mode := VerifyMode.cert_required,
                              ca_loaded := true })
        else
          Except.ok (some { check_hostname := false,
                            verify_mode := VerifyMode.cert_none,
                            ca_loaded := false })

/-- The verification mode of the context a `create_ssl_context` run
handed back to its caller, when it returned one (no exception, not
`None`). -/
def builtVerifyMode : Except SslLoadError (Option SslContext) →
    Option VerifyMode
  | Except.ok (some ctx) => some ctx.verify_mode
  | Except.ok none => none
  | Except.error _ => none

/-- `start_http_server_if_enabled` (src/config/http_server_config.py
lines 38-63): when `HTTP_ENABLED` holds and there is no TLS context,
a plaintext listener thread is started on `port + 1000` (its port is
returned); when `HTTP_ENABLED` holds but TLS is active, the listener
is skipped with an override log; otherwise nothing happens. -/
def start_http_server_if_enabled (http_enabled : Bool) (port : Nat)
    (ssl_context : Option SslContext) : Option Nat :=
  if http_enabled && ssl_context.isNone then
    some (port + 1000)
  else
    if http_enabled && !ssl_context.isNone then
      none
    else
      none

namespace Keycloak

/-- The `realm_access` claim object: its optional `roles` entry
(`realm_access.get("roles", [])` defaults to the empty list). -/
structure RealmAccess where
  roles : Option (List String)
  deriving DecidableEq, Repr

/-- One value of the `resource_access` claim object: a per-client
entry with an optional `roles` list. -/
structure ClientAccess where
  roles : Option (List String)
  deriving DecidableEq, Repr

/-- A decoded JWT claims document, restricted to the paths
`validate_jwt_roles` reads: the optional `realm_access` object and
the optional `resource_access` dictionary. -/
structure DecodedToken where
  realm_access : Option RealmAccess
  resource_access : Option (List (String × ClientAccess))
  deriving DecidableEq, Repr

/-- Python `dict` lookup (`d[k]` / `k in d`) on an association list. -/
def dictGet (d : List (String × ClientAccess)) (k : String) :
    Option ClientAccess :=
  (d.find? (fun p => p.1 == k)).map (fun p => p.2)

/-- The fixed role requirements of `KeycloakConfig.__init__`
(src/config/keycloak_config.py lines 13-16). -/
structure KeycloakConfigData where
  required_realm_role : String
  required_client_id : String
  required_client_role : String
  deriving DecidableEq, Repr

/-- The module-level `keycloak_config` instance. -/
def keycloak_config : KeycloakConfigData :=
  { required_realm_role := "gateway_admin_realm",
    required_client_id := "linqra-gateway-client",
    required_client_role := "gateway_admin" }

/-- `KeycloakConfig._check_realm_roles` (lines 59-79):
`decoded_token.get("realm_access", {})` then `.get("roles", [])`,
then membership of the required realm role. -/
def check_realm_roles (cfg : KeycloakConfigData) (tok : DecodedToken) :
    Bool :=
  let realm_access := tok.realm_access.getD { roles := none }
  let realm_roles := realm_access.roles.getD []
  realm_roles.contains cfg.required_realm_role

/-- `KeycloakConfig._check_client_roles` (lines 81-105): fails closed
when the configured client id is not a key of `resource_access`;
otherwise membership of the required client role in that entry's
`roles` (defaulting to the empty list). -/
def check_client_roles (cfg : KeycloakConfigData) (tok : DecodedToken) :
    Bool :=
  let resource_access := tok.resource_access.getD []
  match dictGet resource_access cfg.required_client_id with
  | none => false
  | some entry => (entry.roles.getD []).contains cfg.required_client_role

/-- `KeycloakConfig.validate_jwt_roles` (lines 18-57): the token is
decoded without signature verification; a decoding exception
(modelled as `none`) is caught and yields `False`; otherwise the
realm check and the client check must both pass. -/
def validate_jwt_roles (cfg : KeycloakConfigData)
    (decoded : Option DecodedToken) : Bool :=
  match decoded with
  | none => false
  | some tok => check_realm_roles cfg tok && check_client_roles cfg tok

end Keycloak

namespace Health

/-- `HealthController.is_healthy`
(src/controllers/health_controller.py lines 46-70): on a successful
metrics read (`some (memory_percent, cpu_percent)`) the service is
healthy when the process memory percentage is strictly below the
90.0 threshold and the CPU percentage is at least 0; a psutil
exception (`none`) yields `False`. -/
def is_healthy (reading : Option (ℚ × ℚ)) : Bool :=
  match reading with
  | none => false
  | some (memory_percent, cpu_percent) =>
    decide (memory_percent < 90) && decide (0 ≤ cpu_percent)

/-- The `status` field computed by
`HealthController.get_health_status` (lines 90-133): `UP` when
`is_healthy`, `DOWN` otherwise (also `DOWN` on an exception). -/
def get_health_status (reading : Option (ℚ × ℚ)) : String :=
  if is_healthy reading then "UP" else "DOWN"

/-- `HealthResource.get` (lines 29-37): HTTP 200 when the computed
status is `UP`, HTTP 503 otherwise.  Result is (status, HTTP code). -/
def health_resource_get (reading : Option (ℚ × ℚ)) : String × Nat :=
  let health_status := get_health_status reading
  if health_status == "UP" then (health_status, 200)
  else (health_status, 503)

end Health

namespace Shutdown

/-- Observable events of the coordinated shutdown: entry into and
return from `stop_http_server` and `stop_heartbeat`, and the issuing
of the deregistration call. -/
inductive SEvent
  | listenerStopBegin
  | listenerStopEnd
  | heartbeatStopBegin
  | heartbeatStopEnd
  | deregisterCall
  deriving DecidableEq, Repr

/-- `stop_http_server` (src/config/http_server_config.py lines
65-85): when a live listener thread exists it is signalled and
joined (the stop begins and completes); otherwise the function only
logs that there is nothing to stop. -/
def stop_http_server_events (httpThreadAlive : Bool) : List SEvent :=
  if httpThreadAlive then
    [SEvent.listenerStopBegin, SEvent.listenerStopEnd]
  else
    []

/-- `EurekaConfig.stop_heartbeat` (src/config/eureka_config.py lines
313-318): the running flag is always cleared (the stop begins); the
join that completes the stop happens only when a live worker thread
exists. -/
def stop_heartbeat_events (hbThreadAlive : Bool) : List SEvent :=
  SEvent.heartbeatStopBegin ::
    (if hbThreadAlive then [SEvent.heartbeatStopEnd] else [])

/-- The cross-module state `cleanup_resources` acts on: whether the
plaintext listener thread and the heartbeat worker thread are alive. -/
structure AppRunState where
  httpThreadAlive : Bool
  hbThreadAlive : Bool
  deriving DecidableEq, Repr

/-- `cleanup_resources` (src/app.py lines 80-93): sequentially calls
`stop_http_server()`, then `stop_heartbeat()`, then
`deregister_from_eureka()`; being plain sequential calls on one
thread, the events of each call all precede the events of the next. -/
def cleanup_resources (st : AppRunState) : List SEvent :=
  stop_http_server_events st.httpThreadAlive
    ++ stop_heartbeat_events st.hbThreadAlive
    ++ [SEvent.deregisterCall]

end Shutdown

/-! ## Example configurations used by witnesses -/

/-- A configuration state whose `APP_NAME` is unset. -/
def cfgNoApp : EurekaConfigState :=
  { app_name := none, instance_id := "counter-app:0",
    eureka_server_url := "https://localhost:8761/eureka/eureka/" }

/-- A configuration state whose `APP_NAME` is set. -/
def cfgApp : EurekaConfigState :=
  { app_name := some "counter-app", instance_id := "counter-app:0",
    eureka_server_url := "https://localhost:8761/eureka/eureka/" }

/-! ## Claims -/

/-- C1 counterexample: with `appName` unset, `send_heartbeat` is not a
no-op returning false — it still hands a PUT request to the network
and, when the registry answers 200, even returns `True`, because the
method has no `app_name` guard. -/
theorem C1_heartbeat_not_noop_counterexample :
    (EurekaConfig.send_heartbeat cfgNoApp (NetResult.status 200)).1 = true ∧
    ((EurekaConfig.send_heartbeat cfgNoApp (NetResult.status 200)).2).isSome
      = true := by
  constructor <;> rfl

/-- C1 (amended): with `appName` unset or empty, `register()` and
`deregister()` return false without handing any request to the
network and never throw; `send_heartbeat`, however, has no such
guard and always issues its network request; and the `EurekaConfig`
constructor itself raises `ValueError` when `APP_NAME` is unset, so
the guarded operations are only reachable on an already-built
configuration object. -/
theorem C1_registry_ops_amended (cfg : EurekaConfigState)
    (net : NetResult) (h : pyTruthy cfg.app_name = false) :
    EurekaConfig.register_with_eureka cfg net = (false, none) ∧
    EurekaConfig.deregister_from_eureka cfg net = (false, none) ∧
    ((EurekaConfig.send_heartbeat cfg net).2).isSome = true ∧
    EurekaConfig.init cfg.app_name cfg.instance_id cfg.eureka_server_url
      = Except.error
          "APP_NAME environment variable is required but not set" := by
  refine ⟨?_, ?_, ?_, ?_⟩
  · simp [EurekaConfig.register_with_eureka, h]
  · simp [EurekaConfig.deregister_from_eureka, h]
  · cases net <;> rfl
  · simp [EurekaConfig.init, h]

/-- C1 witness: the amended statement evaluated on a concrete
configuration with `APP_NAME` unset. -/
theorem C1_registry_ops_amended_witness :
    pyTruthy cfgNoApp.app_name = false ∧
    EurekaConfig.register_with_eureka cfgNoApp NetResult.exn
      = (false, none) :=
  ⟨rfl, (C1_registry_ops_amended cfgNoApp NetResult.exn rfl).1⟩

/-- C8: with `appName` set, `register()` returns true exactly when the
registry responds with HTTP 204; any other status, `HTTPError` or
network exception yields false. -/
theorem C8_register_success_iff_204 (cfg : EurekaConfigState)
    (net : NetResult) (h : pyTruthy cfg.app_name = true) :
    (EurekaConfig.register_with_eureka cfg net).1 = true ↔
      net = NetResult.status 204 := by
  cases net with
  | status code =>
    simp [EurekaConfig.register_with_eureka, h]
  | httpError code =>
    simp [EurekaConfig.register_with_eureka, h]
  | exn =>
    simp [EurekaConfig.register_with_eureka, h]

/-- C8 witness: registration against a 204 response on a concrete
configuration succeeds. -/
theorem C8_register_success_iff_204_witness :
    pyTruthy cfgApp.app_name = true ∧
    (EurekaConfig.register_with_eureka cfgApp (NetResult.status 204)).1
      = true :=
  ⟨rfl, (C8_register_success_iff_204 cfgApp (NetResult.status 204)
          rfl).mpr rfl⟩

/-- C5: starting from the initial heartbeat state, the startup path
leaves a live heartbeat loop exactly when `register()` returned true;
in particular a failed registration leaves the heartbeat state
untouched (never started). -/
theorem C5_heartbeat_only_after_registration (cfg : EurekaConfigState)
    (net : NetResult) :
    (EurekaConfig.threadAlive
        (module_register_with_eureka cfg net
          EurekaConfig.initialHeartbeat).2 = true ↔
      (EurekaConfig.register_with_eureka cfg net).1 = true) ∧
    (module_register_with_eureka cfg net
        EurekaConfig.initialHeartbeat).2 =
      (if (EurekaConfig.register_with_eureka cfg net).1 then
        { heartbeat_thread := some true, heartbeat_running := true }
       else EurekaConfig.initialHeartbeat) := by
  cases hreg : (EurekaConfig.register_with_eureka cfg net).1 <;>
    simp [module_register_with_eureka, hreg, EurekaConfig.start_heartbeat,
      EurekaConfig.threadAlive, EurekaConfig.initialHeartbeat]

/-- C9: calling `start_heartbeat` while a live worker thread exists is
a no-op that leaves exactly one active loop; in particular a second
call right after the first one changes nothing. -/
theorem C9_start_heartbeat_idempotent (st : EurekaConfig.HeartbeatState)
    (h : EurekaConfig.threadAlive st = true) :
    EurekaConfig.start_heartbeat st = st ∧
    EurekaConfig.activeLoops (EurekaConfig.start_heartbeat st) = 1 ∧
    EurekaConfig.start_heartbeat
        (EurekaConfig.start_heartbeat EurekaConfig.initialHeartbeat) =
      EurekaConfig.start_heartbeat EurekaConfig.initialHeartbeat := by
  refine ⟨?_, ?_, rfl⟩
  · simp [EurekaConfig.start_heartbeat, h]
  · simp [EurekaConfig.start_heartbeat, EurekaConfig.activeLoops, h]

/-- C9 witness: the idempotence statement evaluated on the state
reached right after a first `start_heartbeat`. -/
theorem C9_start_heartbeat_idempotent_witness :
    EurekaConfig.threadAlive
      { heartbeat_thread := some true, heartbeat_running := true } = true ∧
    EurekaConfig.start_heartbeat
        { heartbeat_thread := some true, heartbeat_running := true } =
      { heartbeat_thread := some true, heartbeat_running := true } :=
  ⟨rfl, (C9_start_heartbeat_idempotent
          { heartbeat_thread := some true, heartbeat_running := true }
          rfl).1⟩

/-- C7: the heartbeat worker runs exactly as long as the running flag
reads true, independently of the outcome of each tick's
`send_heartbeat`: failed ticks (bad status, `HTTPError`, network
exception) are recorded as false results and the loop still proceeds
to the next tick. -/
theorem C7_heartbeat_loop_never_killed (cfg : EurekaConfigState)
    (ticks : List (Bool × NetResult)) :
    EurekaConfig.heartbeat_worker cfg ticks =
      (ticks.takeWhile (fun t => t.1)).map
        (fun t => (EurekaConfig.send_heartbeat cfg t.2).1) := by
  induction ticks with
  | nil => rfl
  | cons t rest ih =>
    obtain ⟨running, net⟩ := t
    cases running <;>
      simp [EurekaConfig.heartbeat_worker, List.takeWhile, ih]

/-- C3: the plaintext listener is started exactly when `HTTP_ENABLED`
holds and there is no TLS context, and then on the derived port
`port + 1000`; whenever TLS is active the listener is never started,
so HTTP and TLS listeners never run concurrently on one instance. -/
theorem C3_http_listener_iff_no_tls (http_enabled : Bool) (port : Nat)
    (ssl_context : Option SslContext) :
    start_http_server_if_enabled http_enabled port ssl_context =
      (if http_enabled = true ∧ ssl_context = none then
        some (port + 1000)
       else none) := by
  cases ssl_context <;> cases http_enabled <;>
    simp [start_http_server_if_enabled]

/-- C4: starting from a fully running instance (live listener thread,
live heartbeat thread), the coordinated shutdown emits the listener
stop completion strictly before the heartbeat stop begins, and the
heartbeat stop completion strictly before the deregistration call. -/
theorem C4_shutdown_ordering (st : Shutdown.AppRunState)
    (h₁ : st.httpThreadAlive = true) (h₂ : st.hbThreadAlive = true) :
    Shutdown.cleanup_resources st =
      [Shutdown.SEvent.listenerStopBegin, Shutdown.SEvent.listenerStopEnd,
       Shutdown.SEvent.heartbeatStopBegin, Shutdown.SEvent.heartbeatStopEnd,
       Shutdown.SEvent.deregisterCall] ∧
    (Shutdown.cleanup_resources st).indexOf Shutdown.SEvent.listenerStopEnd <
      (Shutdown.cleanup_resources st).indexOf
        Shutdown.SEvent.heartbeatStopBegin ∧
    (Shutdown.cleanup_resources st).indexOf Shutdown.SEvent.heartbeatStopEnd <
      (Shutdown.cleanup_resources st).indexOf
        Shutdown.SEvent.deregisterCall := by
  obtain ⟨a, b⟩ := st
  simp only at h₁ h₂
  subst h₁ h₂
  refine ⟨rfl, by decide, by decide⟩

/-- C4 witness: the shutdown ordering evaluated on the concrete fully
running state. -/
theorem C4_shutdown_ordering_witness :
    (Shutdown.AppRunState.mk true true).httpThreadAlive = true ∧
    Shutdown.cleanup_resources (Shutdown.AppRunState.mk true true) =
      [Shutdown.SEvent.listenerStopBegin, Shutdown.SEvent.listenerStopEnd,
       Shutdown.SEvent.heartbeatStopBegin, Shutdown.SEvent.heartbeatStopEnd,
       Shutdown.SEvent.deregisterCall] :=
  ⟨rfl, (C4_shutdown_ordering (Shutdown.AppRunState.mk true true)
          rfl rfl).1⟩

/-- Filesystem oracle on which every path is accessible. -/
def fsAll : String → Bool := fun _ => true

/-- SSL-library oracle on which every piece of material loads except
the CA bundle at `certs/ca.crt` (the file exists but is unreadable
or malformed). -/
def loadableNoCa : String → Bool := fun s => !(s == "certs/ca.crt")

/-- A TLS configuration with certificate, key and CA bundle present
and mutual TLS requested. -/
def cfgTls : SslAppConfig :=
  { ssl_enabled := true, ssl_cert_path := some "certs/server.crt",
    ssl_key_path := some "certs/server.key",
    ca_bundle_path := some "certs/ca.crt", mutual_tls_enabled := true }

/-- C6 counterexample: with TLS enabled, certificate and key present
and loadable, mutual TLS requested and a CA bundle that exists but
cannot be read, the builder does not degrade to a standard TLS
context with verification `CERT_NONE` — the uncaught
`load_verify_locations` failure propagates and no context is
returned at all. -/
theorem C6_mtls_unloadable_ca_counterexample :
    loadableNoCa (pyStr cfgTls.ca_bundle_path) = false ∧
    create_ssl_context cfgTls fsAll loadableNoCa =
      Except.error SslLoadError.verifyLocations :=
  ⟨by decide, rfl⟩

/-- C6 (amended): with TLS enabled and the certificate and key
present, existing and loadable, the builder hands back a context
with verification `CERT_REQUIRED` exactly when mutual TLS is
requested and the CA bundle path is truthy, its file exists
(existence, not readability, is what the code checks) and its
material loads; when mutual TLS is requested with an existing CA
bundle whose material does not load, the builder raises the
uncaught `load_verify_locations` error instead of degrading; and
when the mutual-TLS existence check fails, verification is
`CERT_NONE` and a standard TLS context is still returned. -/
theorem C6_verify_mode_amended (cfg : SslAppConfig)
    (exists_fs loadable : String → Bool)
    (hssl : cfg.ssl_enabled = true)
    (hcert : (pyTruthy cfg.ssl_cert_path && pyTruthy cfg.ssl_key_path
        && exists_fs (pyStr cfg.ssl_cert_path)
        && exists_fs (pyStr cfg.ssl_key_path)) = true)
    (hload : (loadable (pyStr cfg.ssl_cert_path)
        && loadable (pyStr cfg.ssl_key_path)) = true) :
    (builtVerifyMode (create_ssl_context cfg exists_fs loadable) =
        some VerifyMode.cert_required ↔
      (cfg.mutual_tls_enabled = true ∧
       pyTruthy cfg.ca_bundle_path = true ∧
       exists_fs (pyStr cfg.ca_bundle_path) = true ∧
       loadable (pyStr cfg.ca_bundle_path) = true)) ∧
    ((cfg.mutual_tls_enabled && pyTruthy cfg.ca_bundle_path
        && exists_fs (pyStr cfg.ca_bundle_path)) = true →
      loadable (pyStr cfg.ca_bundle_path) = false →
      create_ssl_context cfg exists_fs loadable =
        Except.error SslLoadError.verifyLocations) ∧
    ((cfg.mutual_tls_enabled && pyTruthy cfg.ca_bundle_path
        && exists_fs (pyStr cfg.ca_bundle_path)) = false →
      create_ssl_context cfg exists_fs loadable =
        Except.ok (some { check_hostname := false,
                          verify_mode := VerifyMode.cert_none,
                          ca_loaded := false })) := by
  cases hm : (cfg.mutual_tls_enabled && pyTruthy cfg.ca_bundle_path
      && exists_fs (pyStr cfg.ca_bundle_path)) with
  | true =>
    have hm' := hm
    simp only [Bool.and_eq_true] at hm'
    cases hca : loadable (pyStr cfg.ca_bundle_path) with
    | true =>
      refine ⟨?_, ?_, ?_⟩
      · simp [create_ssl_context, builtVerifyMode, hssl, hcert, hload,
          hm, hca, hm'.1.1, hm'.1.2, hm'.2]
      · intro _ hca'
        cases hca'
      · intro hm''
        cases hm''
    | false =>
      refine ⟨?_, ?_, ?_⟩
      · simp [create_ssl_context, builtVerifyMode, hssl, hcert, hload,
          hm, hca]
      · intro _ _
        simp [create_ssl_context, hssl, hcert, hload, hm, hca]
      · intro hm''
        cases hm''
  | false =>
    refine ⟨?_, ?_, ?_⟩
    · constructor
      · intro h
        simp [create_ssl_context, builtVerifyMode, hssl, hcert, hload,
          hm] at h
      · rintro ⟨h₁, h₂, h₃, -⟩
        rw [h₁, h₂, h₃] at hm
        cases hm
    · intro hm'' _
      cases hm''
    · intro _
      simp [create_ssl_context, hssl, hcert, hload, hm]

/-- C6 witness: the amended statement evaluated on the concrete
mutual-TLS configuration with every file loadable yields a context
with verification `CERT_REQUIRED`. -/
theorem C6_verify_mode_amended_witness :
    cfgTls.ssl_enabled = true ∧
    builtVerifyMode (create_ssl_context cfgTls fsAll fsAll) =
      some VerifyMode.cert_required :=
  ⟨rfl, (C6_verify_mode_amended cfgTls fsAll fsAll rfl rfl rfl).1.mpr
          ⟨rfl, rfl, rfl, rfl⟩⟩

/-- C2: `validate_jwt_roles` returns true exactly when decoding
succeeded and the claims carry the required realm role inside
`realm_access.roles` and the required client role inside
`resource_access.{clientId}.roles` for the configured client id;
in particular an absent client-id key or a decoding exception
(`none`) yields false. -/
theorem C2_validate_jwt_roles_iff (d : Option Keycloak.DecodedToken) :
    (Keycloak.validate_jwt_roles Keycloak.keycloak_config d = true ↔
      ∃ tok, d = some tok ∧
        Keycloak.keycloak_config.required_realm_role ∈
          (tok.realm_access.getD { roles := none }).roles.getD [] ∧
        ∃ entry,
          Keycloak.dictGet (tok.resource_access.getD [])
              Keycloak.keycloak_config.required_client_id = some entry ∧
          Keycloak.keycloak_config.required_client_role ∈
            entry.roles.getD []) ∧
    Keycloak.validate_jwt_roles Keycloak.keycloak_config none = false := by
  refine ⟨?_, rfl⟩
  cases d with
  | none => simp [Keycloak.validate_jwt_roles]
  | some tok =>
    simp only [Keycloak.validate_jwt_roles, Keycloak.check_realm_roles,
      Keycloak.check_client_roles, Bool.and_eq_true, Option.some.injEq]
    cases hlook : Keycloak.dictGet (tok.resource_access.getD [])
        Keycloak.keycloak_config.required_client_id with
    | none =>
      simp [hlook]
    | some entry =>
      simp [hlook]

/-- C10 counterexample: at a process-memory reading of exactly 90%
(CPU 0%), the reading does not exceed 90% — so the claim predicts
UP with 200 — yet the code reports DOWN with 503, because
`is_healthy` requires the memory percentage to be strictly below
the threshold. -/
theorem C10_health_boundary_counterexample :
    ¬ ((90 : ℚ) > 90) ∧
    Health.health_resource_get (some (90, 0)) = ("DOWN", 503) :=
  ⟨lt_irrefl 90, by rfl⟩

/-- C10 (amended): for any nonnegative CPU reading, the health query
reports DOWN with 503 exactly when the process-memory reading is at
least the 90% threshold (boundary included), and UP with 200 exactly
when it is strictly below 90%. -/
theorem C10_health_threshold_amended (memory_percent cpu_percent : ℚ)
    (hcpu : 0 ≤ cpu_percent) :
    (Health.health_resource_get (some (memory_percent, cpu_percent)) =
        ("DOWN", 503) ↔ 90 ≤ memory_percent) ∧
    (Health.health_resource_get (some (memory_percent, cpu_percent)) =
        ("UP", 200) ↔ memory_percent < 90) := by
  by_cases hmem : memory_percent < 90
  · simp [Health.health_resource_get, Health.get_health_status,
      Health.is_healthy, hmem, hcpu, not_le.mpr hmem]
  · simp [Health.health_resource_get, Health.get_health_status,
      Health.is_healthy, hmem, hcpu, not_lt.mp hmem]

/-- C10 witness: the amended statement evaluated at a 95% memory
reading with CPU 0%. -/
theorem C10_health_threshold_amended_witness :
    (0 : ℚ) ≤ 0 ∧
    Health.health_resource_get (some ((95 : ℚ), 0)) = ("DOWN", 503) :=
  ⟨le_refl 0,
    (C10_health_threshold_amended 95 0 (le_refl 0)).1.mpr (by decide)⟩

end CounterApp
